import Mathlib

/-!
Verification of the umalator-global development server (`umalator-global/build.mjs`).

The file embeds, as executable Lean definitions, the parts of `build.mjs` that the
specification talks about:

* the module-resolution redirection plugins `redirectData`, `mockAssert` and
  `redirectTable` (lines 45-80 of the source), combined into `resolveSpecifier`,
  which applies the registered `onResolve` callbacks in registration order and
  returns the first match, exactly as esbuild does;
* the request handler installed by `runServer` (lines 120-190): the path-prefix
  redirect policy, the per-artifact request counters, the build counter, the
  worker-script toggle and the rebuild trigger condition
  (`requestN != buildCount`), modelled by `handleRequest` / `stepArtifact`;
* the settlement behaviour of the `output` promise created on lines 152-155,
  modelled by `outputFate`.

JavaScript `Map`/number state is modelled with a plain structure of `Nat`
fields; the single-threaded event loop makes the synchronous segment of the
handler (from the start of the callback to the read of `output` on line 158)
atomic, so one request is one step of `handleRequest`.
-/

/-- `p` is a prefix of `s`, comparing character lists; models JS
`s.startsWith(p)` (all strings involved are ASCII, so UTF-16 units and
codepoints agree). -/
def strStartsWith (p s : String) : Bool :=
  s.data.take p.data.length == p.data

/-- Drop the first `n` characters of `s`; models JS `s.slice(n)` for ASCII
strings. -/
def strDrop (s : String) (n : Nat) : String :=
  ⟨s.data.drop n⟩

/-- Final path segment of `s` after discarding trailing slashes; models node's
`path.basename` on the POSIX paths this server handles. -/
def basename (s : String) : String :=
  ⟨((s.data.reverse.dropWhile (· = '/')).takeWhile (· ≠ '/')).reverse⟩

/-- First occurrence search: `findSep sep l = some (before, after)` splits `l`
around the leftmost occurrence of `sep`, scanning left to right. -/
def findSep (sep : List Char) : List Char → Option (List Char × List Char)
  | [] => if sep.length == 0 then some ([], []) else none
  | c :: cs =>
    if (c :: cs).take sep.length == sep then some ([], (c :: cs).drop sep.length)
    else
      match findSep sep cs with
      | none => none
      | some (b, a) => some (c :: b, a)

/-- The separator of the generic data rule: the literal `/data/` that
`args.path.split('/data/')` splits on (line 49). -/
def dataSep : List Char := "/data/".data

/-- Models `args.path.split('/data/')[1]` from line 49: the segment of the
specifier strictly between the first and second occurrences of `/data/` (to
the end of the string when `/data/` occurs only once), and `none` when
`/data/` does not occur at all (there JS would index past the end of the split
array; unreachable under the rule's filter, which requires an occurrence). -/
def splitDataTail (s : String) : Option String :=
  match findSep dataSep s.data with
  | none => none
  | some (_, a) =>
    match findSep dataSep a with
    | none => some ⟨a⟩
    | some (b, _) => some ⟨b⟩

/-- Models `path.join(dirname, rest)` as used by the plugins as separator
concatenation, omitting node's normalisation of `.`, `..` and duplicate
slashes: on such inputs the unnormalised string is a non-canonical spelling
of the same path, so which specifiers are rewritten and which file a result
denotes are unaffected; no theorem below equates two `pathJoin` results that
would only coincide after normalisation. -/
def pathJoin (a b : String) : String := a ++ "/" ++ b

/-- Matching a pattern at the head of `s`, where the character `.` of the
pattern is the regex wildcard and every other character is literal: this is
the only regex syntax appearing in the filenames passed to `new RegExp(f)` on
line 52. -/
def patMatchHere : List Char → List Char → Bool
  | [], _ => true
  | _ :: _, [] => false
  | p :: ps, c :: cs => (p == '.' || p == c) && patMatchHere ps cs

/-- Unanchored search for `patMatchHere` at every position of `s`. -/
def patSearch (pat : List Char) : List Char → Bool
  | [] => patMatchHere pat []
  | c :: cs => patMatchHere pat (c :: cs) || patSearch pat cs

/-- Does the unanchored regex `new RegExp(f)` built from filename `f` on
line 52 accept specifier `s`. -/
def fileFilterMatches (f s : String) : Bool :=
  patSearch f.data s.data

/-- An anchored match of the generic data rule's filter
`^\.\.?(?:\/uma-skill-tools)?\/data\/` (line 48) succeeds exactly when the
specifier starts with one of these four prefixes. -/
def matchesDataPattern (s : String) : Bool :=
  strStartsWith "./data/" s || strStartsWith "../data/" s ||
  strStartsWith "./uma-skill-tools/data/" s ||
  strStartsWith "../uma-skill-tools/data/" s

/-- The fixed filename list iterated by the for-loop on line 51, in loop
order, which is also the registration order of the corresponding `onResolve`
callbacks. -/
def wellKnownDataFiles : List String :=
  ["skill_meta.json", "skill_aliases.json", "umas.json", "skill_trigrams.json"]

/-- Line 59: the text of the assertion function substituted into the
`node:assert` stub — `console.assert` when `--debug` is set, the no-op
function expression otherwise. -/
def mockAssertFn (debug : Bool) : String :=
  if debug then "console.assert" else "function()\x7b\x7d"

/-- Line 67: the module source produced by the `mockAssert` plugin's `onLoad`
callback: `module.exports={strict:` + `mockAssertFn` + `};`. -/
def mockAssertLoad (debug : Bool) : String :=
  "module.exports=\x7bstrict:" ++ mockAssertFn debug ++ "\x7d;"

/-- Line 77: the target of the `redirectTable` rule,
`path.join(dirname, '..', 'vendor', args.path.slice(10), 'index.ts')`; node
would normalise the `..` against the last segment of `dirname`, written here
unnormalised since no claim depends on this rule's target. -/
def tanstackTarget (dirname s : String) : String :=
  pathJoin (pathJoin (pathJoin dirname "..") "vendor")
    (pathJoin (strDrop s 10) "index.ts")

/-- Result of running the plugins' `onResolve` callbacks on one specifier:
a plain path, a path tagged with a namespace (the `mockAssert` stub), or no
rule fired (esbuild falls through to default resolution). -/
inductive ResolveResult where
  | resolvedPath (p : String)
  | resolvedNS (p ns : String)
  | unresolved
deriving DecidableEq

/-- The full resolution chain of `buildOptions.plugins = [redirectData,
mockAssert, redirectTable]`: esbuild consults `onResolve` callbacks in plugin
registration order, then in per-plugin registration order, and the first
callback whose filter matches wins (every callback here returns a result
whenever its filter matches).  Order: the generic data rule (line 48), then
the four exact-filename rules in loop order (lines 51-55), then `node:assert`
(line 63), then `@tanstack/` (line 76). -/
def resolveSpecifier (dirname s : String) : ResolveResult :=
  if matchesDataPattern s then
    match splitDataTail s with
    | some rest => ResolveResult.resolvedPath (pathJoin dirname rest)
    | none => ResolveResult.unresolved
  else
    match wellKnownDataFiles.find? (fun f => fileFilterMatches f s) with
    | some f => ResolveResult.resolvedPath (pathJoin dirname f)
    | none =>
      if s = "node:assert" then ResolveResult.resolvedNS s "mockAssert-ns"
      else if strStartsWith "@tanstack/" s then
        ResolveResult.resolvedPath (tanstackTarget dirname s)
      else ResolveResult.unresolved

/-- The `ARTIFACTS` list of line 112. -/
def ARTIFACTS : List String :=
  ["bundle.js", "bundle.css", "simulator.worker.js"]

/-- The `SOURCEMAP_ARTIFACTS` list of line 116. -/
def SOURCEMAP_ARTIFACTS : List String :=
  ["bundle.js.map", "bundle.css.map", "simulator.worker.js.map"]

/-- Line 142: `ARTIFACTS.indexOf(filename) > -1 ||
SOURCEMAP_ARTIFACTS.indexOf(filename) > -1`. -/
def isArtifact (f : String) : Bool :=
  ARTIFACTS.contains f || SOURCEMAP_ARTIFACTS.contains f

/-- The `requestCount` map of line 126: a JS `Map` whose keys are exactly the
six artifact names, each initialised to 0, modelled as one field per key. -/
structure RequestCount where
  bundleJs : Nat
  bundleCss : Nat
  workerJs : Nat
  bundleJsMap : Nat
  bundleCssMap : Nat
  workerJsMap : Nat
deriving DecidableEq

/-- `requestCount.get(filename)`; the handler only calls it with one of the
six keys (line 142 guards with `isArtifact`), the final 0 is unreachable. -/
def RequestCount.get (rc : RequestCount) (f : String) : Nat :=
  if f = "bundle.js" then rc.bundleJs
  else if f = "bundle.css" then rc.bundleCss
  else if f = "simulator.worker.js" then rc.workerJs
  else if f = "bundle.js.map" then rc.bundleJsMap
  else if f = "bundle.css.map" then rc.bundleCssMap
  else if f = "simulator.worker.js.map" then rc.workerJsMap
  else 0

/-- `requestCount.set(filename, v)`; same key discipline as `get`. -/
def RequestCount.set (rc : RequestCount) (f : String) (v : Nat) : RequestCount :=
  if f = "bundle.js" then { rc with bundleJs := v }
  else if f = "bundle.css" then { rc with bundleCss := v }
  else if f = "simulator.worker.js" then { rc with workerJs := v }
  else if f = "bundle.js.map" then { rc with bundleJsMap := v }
  else if f = "bundle.css.map" then { rc with bundleCssMap := v }
  else if f = "simulator.worker.js.map" then { rc with workerJsMap := v }
  else rc

/-- The map of line 126 right after construction: every counter 0. -/
def initRC : RequestCount := ⟨0, 0, 0, 0, 0, 0⟩

/-- The maximum of the per-artifact request counters, the right-hand side of
the spec's invariant `BuildGeneration <= max(RequestCount[a])`. -/
def maxRequestCount (rc : RequestCount) : Nat :=
  rc.bundleJs.max (rc.bundleCss.max (rc.workerJs.max
    (rc.bundleJsMap.max (rc.bundleCssMap.max rc.workerJsMap))))

/-- The mutable state captured by the `runServer` closure (lines 126-130):
`requestCount`, `buildCount`, `workerState` (only ever 0 or 1 in the source,
modelled as `Bool` with `false = 0`), and the `output` variable.  Each
`new Promise` on line 152 is a fresh handle; since it is created together with
the increment of `buildCount`, handles are identified here by the value of
`buildCount` at their creation (`outputGen`), with `none` for the initial
`null`.  Requests observe the same handle iff they observe the same
`outputGen`. -/
structure CoordState where
  requestCount : RequestCount
  buildCount : Nat
  workerState : Bool
  outputGen : Option Nat
deriving DecidableEq

/-- State of the coordinator when `runServer` starts. -/
def initState : CoordState :=
  { requestCount := initRC, buildCount := 0, workerState := false,
    outputGen := none }

/-- The increment added to the stored counter on line 143:
`filename == 'simulator.worker.js' ? (workerState = +!workerState) : 1`; the
value of the assignment expression is the new `workerState`, i.e. 1 when the
old one was 0 and 0 when it was 1. -/
def workerInc (st : CoordState) (f : String) : Nat :=
  if f = "simulator.worker.js" then (if st.workerState then 0 else 1) else 1

/-- The `workerState` left behind by line 143. -/
def workerNext (st : CoordState) (f : String) : Bool :=
  if f = "simulator.worker.js" then !st.workerState else st.workerState

/-- Lines 143-158, the artifact branch of the handler, which runs without a
suspension point from the counter update to the read of `output` on line 158
and is therefore atomic on the event loop.  Returns the new state and the
handle the request captures at `(await output)` (the post-branch value of
`output`). -/
def stepArtifact (st : CoordState) (f : String) : CoordState × Option Nat :=
  let requestN := st.requestCount.get f + workerInc st f
  let rc := st.requestCount.set f requestN
  if requestN ≠ st.buildCount then
    ({ requestCount := rc, buildCount := st.buildCount + 1,
       workerState := workerNext st f, outputGen := some (st.buildCount + 1) },
     some (st.buildCount + 1))
  else
    ({ requestCount := rc, buildCount := st.buildCount,
       workerState := workerNext st f, outputGen := st.outputGen },
     st.outputGen)

/-- What the handler does with one request, as observable from outside:
a 302 redirect with its `Location`, a 200 artifact response served from the
captured output handle, or the static-file branch (lines 163-188), whose
response depends only on the filesystem and is out of the coordinator's
scope. -/
inductive Outcome where
  | redirect (location : String)
  | artifact (filename : String) (observed : Option Nat)
  | passthrough (strippedUrl : String)
deriving DecidableEq

/-- Line 140: `url.slice(subpackage_of ? subpackage_of.length + 1 : 0)`.
`sub = none` models a falsy `subpackage_of` (absent or empty). -/
def strippedPath (sub : Option String) (url : String) : String :=
  match sub with
  | some pfx => strDrop url (pfx.length + 1)
  | none => url

/-- Lines 141-188 after the prefix check: classify by `path.basename` and
either run the artifact branch or fall through to static serving. -/
def dispatch (st : CoordState) (url : String) : CoordState × Outcome :=
  let filename := basename url
  if isArtifact filename then
    ((stepArtifact st filename).1,
     Outcome.artifact filename (stepArtifact st filename).2)
  else (st, Outcome.passthrough url)

/-- One request through the handler of lines 131-188: the prefix-redirect
policy of lines 134-139 (`subpackage_of && !url.startsWith(...)`), then
stripping and dispatch. -/
def handleRequest (sub : Option String) (st : CoordState) (url : String) :
    CoordState × Outcome :=
  match sub with
  | some pfx =>
    if strStartsWith ("/" ++ pfx ++ "/") url then
      dispatch st (strippedPath (some pfx) url)
    else
      (st, Outcome.redirect ("/" ++ pfx ++ "/umalator-global/"))
  | none => dispatch st url

/-- Process a list of requests in arrival order (the event loop runs each
handler's synchronous segment to completion before starting the next),
returning the final state and the per-request outcomes. -/
def runRequests (sub : Option String) (st : CoordState) :
    List String → CoordState × List Outcome
  | [] => (st, [])
  | u :: rest =>
    let r := handleRequest sub st u
    let rs := runRequests sub r.1 rest
    (rs.1, r.2 :: rs.2)

/-- A request that reaches the artifact branch of the coordinator: it passes
the prefix check and its stripped basename is an artifact name. -/
def isCoordRequest (sub : Option String) (u : String) : Bool :=
  match sub with
  | some pfx =>
    strStartsWith ("/" ++ pfx ++ "/") u && isArtifact (basename (strippedPath (some pfx) u))
  | none => isArtifact (basename u)

/-- The possible fates of a JS promise as observed by `await`: still pending
(an `await` never resumes), fulfilled with a value, or rejected. -/
inductive PromiseFate (α : Type) where
  | pending
  | fulfilled (v : α)
  | rejected (e : String)
deriving DecidableEq

/-- The rebuild output as delivered to waiters: `result.outputFiles` keyed by
`path.basename(o.path)` (line 154), contents as byte lists. -/
abbrev OutputMap := List (String × List Nat)

/-- Models lines 152-155: `output = new Promise(async resolve => { const
result = await ctx.rebuild(); resolve(new Map(result.outputFiles.map(o =>
[path.basename(o.path), o.contents]))); })`.  The executor binds only
`resolve`; when `ctx.rebuild()` rejects, the rejection of the `async` executor
function is discarded by the `Promise` constructor, `resolve` is never
invoked, and the outer promise never settles — it does not reject.  On
success the promise fulfills with the basename-keyed map. -/
def outputFate (r : Except String (List (String × List Nat))) :
    PromiseFate OutputMap :=
  match r with
  | Except.ok files => PromiseFate.fulfilled (files.map (fun p => (basename p.1, p.2)))
  | Except.error _ => PromiseFate.pending

/-- The served URL of the `bundle.js` artifact under the default prefix. -/
def urlBundleJs : String := "/uma-tools/umalator-global/bundle.js"

/-- The served URL of the `bundle.css` artifact under the default prefix. -/
def urlBundleCss : String := "/uma-tools/umalator-global/bundle.css"

/-- The served URL of the worker-script artifact under the default prefix. -/
def urlWorker : String := "/uma-tools/umalator-global/simulator.worker.js"

/-- Coordinator state after `2k` worker requests from startup with no other
requests: the worker counter and the build counter both sit at `k`, the
toggle is back at 0, and the current output handle is the one of
generation `k` (none before the first build). -/
def wEven (k : Nat) : CoordState :=
  { requestCount := { initRC with workerJs := k }, buildCount := k,
    workerState := false, outputGen := if k = 0 then none else some k }

/-- Coordinator state after `2k + 1` worker requests from startup with no
other requests. -/
def wOdd (k : Nat) : CoordState :=
  { requestCount := { initRC with workerJs := k + 1 }, buildCount := k + 1,
    workerState := true, outputGen := some (k + 1) }

/-- Coordinator state after one `bundle.js` request: generation 1 was
triggered; used as the state in which the generation-1 build has failed. -/
def failedGenState : CoordState :=
  (runRequests (some "uma-tools") initState [urlBundleJs]).1

lemma stepArtifact_buildCount_le (st : CoordState) (f : String) :
    (stepArtifact st f).1.buildCount ≤ st.buildCount + 1 := by
  simp only [stepArtifact]
  split <;> simp

lemma handleRequest_buildCount_le (sub : Option String) (st : CoordState)
    (u : String) :
    (handleRequest sub st u).1.buildCount
      ≤ st.buildCount + (if isCoordRequest sub u then 1 else 0) := by
  cases sub with
  | none =>
    by_cases hb : isArtifact (basename u) = true
    · simpa [handleRequest, dispatch, isCoordRequest, hb] using
        stepArtifact_buildCount_le st (basename u)
    · simp [handleRequest, dispatch, isCoordRequest, hb]
  | some pfx =>
    by_cases hs : strStartsWith ("/" ++ pfx ++ "/") u = true
    · by_cases hb : isArtifact (basename (strippedPath (some pfx) u)) = true
      · simpa [handleRequest, dispatch, isCoordRequest, hs, hb] using
          stepArtifact_buildCount_le st (basename (strippedPath (some pfx) u))
      · simp [handleRequest, dispatch, isCoordRequest, hs, hb]
    · simp [handleRequest, isCoordRequest, hs]

lemma runRequests_buildCount_le (sub : Option String) :
    ∀ (urls : List String) (st : CoordState),
      (runRequests sub st urls).1.buildCount
        ≤ st.buildCount + urls.countP (fun u => isCoordRequest sub u)
  | [], st => by simp [runRequests]
  | u :: rest, st => by
    have h1 := handleRequest_buildCount_le sub st u
    have h2 := runRequests_buildCount_le sub rest (handleRequest sub st u).1
    by_cases hc : isCoordRequest sub u = true
    · simp only [runRequests, List.countP_cons, hc, if_pos] at h1 ⊢
      omega
    · simp only [runRequests, List.countP_cons] at h1 ⊢
      simp only [hc] at h1 ⊢
      omega

lemma runRequests_fst_append (sub : Option String) (l1 l2 : List String) :
    ∀ st, (runRequests sub st (l1 ++ l2)).1
      = (runRequests sub (runRequests sub st l1).1 l2).1 := by
  induction l1 with
  | nil => intro st; simp [runRequests]
  | cons u rest ih => intro st; simp [runRequests, ih]

lemma handleRequest_worker (st : CoordState) :
    handleRequest (some "uma-tools") st urlWorker
      = ((stepArtifact st "simulator.worker.js").1,
         Outcome.artifact "simulator.worker.js"
           (stepArtifact st "simulator.worker.js").2) := by
  have h1 : strStartsWith "/uma-tools/" urlWorker = true := by decide
  have h2 : basename (strippedPath (some "uma-tools") urlWorker)
      = "simulator.worker.js" := by decide
  have h3 : isArtifact "simulator.worker.js" = true := by decide
  simp [handleRequest, dispatch, h1, h2, h3]

lemma stepArtifact_wEven (k : Nat) :
    stepArtifact (wEven k) "simulator.worker.js" = (wOdd k, some (k + 1)) := by
  simp [stepArtifact, wEven, wOdd, workerInc, workerNext, RequestCount.get,
    RequestCount.set, initRC]

lemma stepArtifact_wOdd (k : Nat) :
    stepArtifact (wOdd k) "simulator.worker.js" = (wEven (k + 1), some (k + 1)) := by
  simp [stepArtifact, wOdd, wEven, workerInc, workerNext, RequestCount.get,
    RequestCount.set, initRC]

lemma workerTrace : ∀ k : Nat,
    (runRequests (some "uma-tools") initState
      (List.replicate (2 * k) urlWorker)).1 = wEven k ∧
    (runRequests (some "uma-tools") initState
      (List.replicate (2 * k + 1) urlWorker)).1 = wOdd k := by
  intro k
  induction k with
  | zero => exact ⟨by decide, by decide⟩
  | succ k ih =>
    have e1 : (runRequests (some "uma-tools") initState
        (List.replicate (2 * (k + 1)) urlWorker)).1 = wEven (k + 1) := by
      have h2 : 2 * (k + 1) = (2 * k + 1) + 1 := by omega
      rw [h2, List.replicate_succ', runRequests_fst_append, ih.2]
      simp [runRequests, handleRequest_worker, stepArtifact_wOdd]
    refine ⟨e1, ?_⟩
    rw [List.replicate_succ', runRequests_fst_append, e1]
    simp [runRequests, handleRequest_worker, stepArtifact_wEven]

/-- C1 (counterexample): two requests for the same non-worker artifact
(`bundle.js`) that both arrive before the first rebuild completes do NOT
await the same output handle: the second request finds `requestN = 2 ≠
buildCount = 1`, triggers a second rebuild, and captures the generation-2
handle while the first request holds the generation-1 handle — two
`PendingOutput` handles exist and the responses come from different
generations. -/
theorem c1_counterexample :
    (runRequests (some "uma-tools") initState [urlBundleJs, urlBundleJs]).2
      = [Outcome.artifact "bundle.js" (some 1),
         Outcome.artifact "bundle.js" (some 2)] ∧
    (runRequests (some "uma-tools") initState [urlBundleJs, urlBundleJs]).1.buildCount
      = 2 := by
  decide

/-- C1 (amended): a request coalesces onto the in-flight handle — no new
rebuild is triggered and the same `output` handle is observed — exactly when
its computed expected request count equals the current build counter; in
particular two consecutive requests for the worker-script artifact from
startup observe the same generation-1 handle, while a second request for a
non-worker artifact replaces the handle. -/
theorem c1_amended :
    (∀ (st : CoordState) (f : String),
      st.requestCount.get f + workerInc st f = st.buildCount →
      (stepArtifact st f).1.buildCount = st.buildCount ∧
      (stepArtifact st f).2 = st.outputGen) ∧
    (runRequests (some "uma-tools") initState [urlWorker, urlWorker]).2
      = [Outcome.artifact "simulator.worker.js" (some 1),
         Outcome.artifact "simulator.worker.js" (some 1)] := by
  refine ⟨?_, by decide⟩
  intro st f h
  simp [stepArtifact, h]

/-- C1 (witness): the amended coalescing condition holds concretely in the
state reached after one worker request, where the second worker request's
expected count `1 + 0` equals `buildCount = 1`. -/
theorem c1_amended_w :
    ((wOdd 0).requestCount.get "simulator.worker.js"
        + workerInc (wOdd 0) "simulator.worker.js" = (wOdd 0).buildCount) ∧
    ((stepArtifact (wOdd 0) "simulator.worker.js").1.buildCount
        = (wOdd 0).buildCount ∧
     (stepArtifact (wOdd 0) "simulator.worker.js").2 = (wOdd 0).outputGen) :=
  ⟨by decide, c1_amended.1 (wOdd 0) "simulator.worker.js" (by decide)⟩

/-- C2 (counterexample): after the request sequence `bundle.js, bundle.js,
bundle.css` the build counter is 3 while every per-artifact request counter
is at most 2 — the third request finds `requestN = 1 ≠ buildCount = 2` and
triggers a rebuild "ahead of demand", so `buildCount ≤ max requestCount`
fails. -/
theorem c2_counterexample :
    ((runRequests (some "uma-tools") initState
        [urlBundleJs, urlBundleJs, urlBundleCss]).1.buildCount = 3) ∧
    (maxRequestCount (runRequests (some "uma-tools") initState
        [urlBundleJs, urlBundleJs, urlBundleCss]).1.requestCount = 2) ∧
    ¬ ((runRequests (some "uma-tools") initState
          [urlBundleJs, urlBundleJs, urlBundleCss]).1.buildCount
        ≤ maxRequestCount (runRequests (some "uma-tools") initState
            [urlBundleJs, urlBundleJs, urlBundleCss]).1.requestCount) := by
  decide

/-- C2 (amended): the build counter is bounded by the number of requests
dispatched to the coordinator (each artifact request triggers at most one
rebuild), for every request sequence from server start. -/
theorem c2_amended (sub : Option String) (urls : List String) :
    (runRequests sub initState urls).1.buildCount
      ≤ urls.countP (fun u => isCoordRequest sub u) := by
  simpa [initState] using runRequests_buildCount_le sub urls initState

/-- C3 (counterexample): a run of 2 consecutive worker-script requests with
no other requests interleaved and no failures can cause 2 rebuilds, exceeding
`ceil(2/2) = 1`: after 2 prior `bundle.js` requests (`buildCount = 2`), each
of the two worker requests finds its expected count (1, then 1 again)
different from the build counter and triggers a rebuild, taking `buildCount`
from 2 to 4. -/
theorem c3_counterexample :
    ((runRequests (some "uma-tools") initState [urlBundleJs, urlBundleJs]).1.buildCount
      = 2) ∧
    ((runRequests (some "uma-tools") initState
        [urlBundleJs, urlBundleJs, urlWorker, urlWorker]).1.buildCount = 4) := by
  decide

/-- C3 (amended): when the N worker-script requests are the entire request
history from server start, the Builder is invoked at most `ceil(N/2)` times:
the worker counter toggles, so the second request of each pair finds its
expected count equal to the build counter and does not rebuild. -/
theorem c3_amended (n : Nat) :
    (runRequests (some "uma-tools") initState
      (List.replicate n urlWorker)).1.buildCount ≤ (n + 1) / 2 := by
  rcases Nat.even_or_odd n with ⟨k, hk⟩ | ⟨k, hk⟩
  · have h2 : n = 2 * k := by omega
    rw [h2, (workerTrace k).1]
    show k ≤ (2 * k + 1) / 2
    omega
  · rw [hk, (workerTrace k).2]
    show k + 1 ≤ (2 * k + 1 + 1) / 2
    omega

/-- C4 (code bug): when `ctx.rebuild()` rejects, the `output` promise of
lines 152-155 never settles — the `async` executor's rejection is discarded
by the `Promise` constructor and `resolve` is never called — so every request
awaiting that generation hangs forever instead of observing a failed
response, contradicting the spec's error-propagation requirement.  The claim's
second half does hold: a subsequent request for the same artifact still finds
`requestN ≠ buildCount` and triggers a fresh rebuild. -/
theorem c4_code_bug :
    outputFate (Except.error "esbuild rebuild rejected") = PromiseFate.pending ∧
    (∀ v : OutputMap,
      outputFate (Except.error "esbuild rebuild rejected") ≠ PromiseFate.fulfilled v) ∧
    (∀ e : String,
      outputFate (Except.error "esbuild rebuild rejected") ≠ PromiseFate.rejected e) ∧
    (handleRequest (some "uma-tools") failedGenState urlBundleJs).1.buildCount
      = failedGenState.buildCount + 1 := by
  refine ⟨rfl, fun v => by simp [outputFate], fun e => by simp [outputFate], by decide⟩

/-- C5 (counterexample): the specifier `./data/x/skill_meta.json` matches both
the generic data-directory filter and the `skill_meta.json` exact-filename
filter, yet the resolution returned is NOT the exact rule's target
`dirname/skill_meta.json` — the generic rule is registered first and wins,
yielding `dirname/x/skill_meta.json`. -/
theorem c5_counterexample :
    matchesDataPattern "./data/x/skill_meta.json" = true ∧
    fileFilterMatches "skill_meta.json" "./data/x/skill_meta.json" = true ∧
    "skill_meta.json" ∈ wellKnownDataFiles ∧
    resolveSpecifier "/repo/uma-tools/umalator-global" "./data/x/skill_meta.json"
      ≠ ResolveResult.resolvedPath
          (pathJoin "/repo/uma-tools/umalator-global" "skill_meta.json") := by
  decide

/-- C5 (amended): when a specifier matches both the generic data-directory
filter and an exact well-known-filename filter, the generic rule — registered
first — takes precedence: the resolution returned is the generic rule's
target, `dirname` joined with the part of the specifier after the first data
segment, not the exact-filename rule's choice (the two rules may still denote
the same file, as for flat imports like `./data/skill_meta.json`). -/
theorem c5_amended (D s rest f : String)
    (hm : matchesDataPattern s = true) (hs : splitDataTail s = some rest)
    (hf : f ∈ wellKnownDataFiles) (hmatch : fileFilterMatches f s = true) :
    resolveSpecifier D s = ResolveResult.resolvedPath (pathJoin D rest) := by
  simp [resolveSpecifier, hm, hs]

/-- C5 (witness): for `./data/skill_meta.json` both filters match and the
generic rule's target is returned. -/
theorem c5_amended_w :
    matchesDataPattern "./data/skill_meta.json" = true ∧
    splitDataTail "./data/skill_meta.json" = some "skill_meta.json" ∧
    "skill_meta.json" ∈ wellKnownDataFiles ∧
    fileFilterMatches "skill_meta.json" "./data/skill_meta.json" = true ∧
    resolveSpecifier "/repo/uma-tools/umalator-global" "./data/skill_meta.json"
      = ResolveResult.resolvedPath
          (pathJoin "/repo/uma-tools/umalator-global" "skill_meta.json") :=
  ⟨by decide, by decide, by decide, by decide,
   c5_amended "/repo/uma-tools/umalator-global" "./data/skill_meta.json"
     "skill_meta.json" "skill_meta.json" (by decide) (by decide) (by decide) (by decide)⟩

/-- C6 (counterexample): the specifier `../../data/foo.json` contains a
relative path segment naming the data directory but traverses two directory
levels before it; the generic filter `^\.\.?(?:\/uma-skill-tools)?\/data\/`
does not match and no other rule fires, so the Redirector declines instead of
rewriting it. -/
theorem c6_counterexample :
    (findSep dataSep "../../data/foo.json".data).isSome = true ∧
    resolveSpecifier "/repo/uma-tools/umalator-global" "../../data/foo.json"
      = ResolveResult.unresolved := by
  decide

/-- C6 (amended): only specifiers whose data segment is reached through a
single leading relative segment — `./` or `../`, optionally via the
`uma-skill-tools` segment, i.e. specifiers matching the rule's anchored
filter — are rewritten by the generic rule, to the file under the project's
root data directory named by the part after the first data segment; deeper
traversals are not matched. -/
theorem c6_amended (D s rest : String)
    (hm : matchesDataPattern s = true) (hs : splitDataTail s = some rest) :
    resolveSpecifier D s = ResolveResult.resolvedPath (pathJoin D rest) := by
  simp [resolveSpecifier, hm, hs]

/-- C6 (witness): the single-level specifier `../data/umas.json` is rewritten
to `dirname/umas.json`. -/
theorem c6_amended_w :
    matchesDataPattern "../data/umas.json" = true ∧
    splitDataTail "../data/umas.json" = some "umas.json" ∧
    resolveSpecifier "/repo/uma-tools/umalator-global" "../data/umas.json"
      = ResolveResult.resolvedPath
          (pathJoin "/repo/uma-tools/umalator-global" "umas.json") :=
  ⟨by decide, by decide,
   c6_amended "/repo/uma-tools/umalator-global" "../data/umas.json" "umas.json"
     (by decide) (by decide)⟩

/-- C7: if the configured prefix does not match — including every request
path shorter than the prefix — the handler responds 302 with `Location`
pointing at the canonical prefixed location `/<pfx>/umalator-global/` and
leaves the coordinator state untouched. -/
theorem c7_mismatch_redirect (pfx : String) (st : CoordState) (url : String)
    (h : strStartsWith ("/" ++ pfx ++ "/") url = false) :
    handleRequest (some pfx) st url
      = (st, Outcome.redirect ("/" ++ pfx ++ "/umalator-global/")) := by
  simp [handleRequest, h]

/-- C7 (witness): with prefix `uma-tools`, the request path
`/other/index.html` yields a 302 to `/uma-tools/umalator-global/` with the
state unchanged. -/
theorem c7_mismatch_redirect_w :
    strStartsWith ("/" ++ "uma-tools" ++ "/") "/other/index.html" = false ∧
    handleRequest (some "uma-tools") initState "/other/index.html"
      = (initState, Outcome.redirect ("/" ++ "uma-tools" ++ "/umalator-global/")) :=
  ⟨by decide, c7_mismatch_redirect "uma-tools" initState "/other/index.html" (by decide)⟩

/-- C8: the `node:assert` specifier resolves to the `mockAssert-ns` stub
module, whose `strict` export is `console.assert` when the debug
configuration is on and the no-op function expression when it is off. -/
theorem c8_assert_stub (D : String) :
    resolveSpecifier D "node:assert"
      = ResolveResult.resolvedNS "node:assert" "mockAssert-ns" ∧
    mockAssertLoad true = "module.exports=\x7bstrict:console.assert\x7d;" ∧
    mockAssertLoad false = "module.exports=\x7bstrict:function()\x7b\x7d\x7d;" := by
  refine ⟨?_, by decide, by decide⟩
  have h1 : matchesDataPattern "node:assert" = false := by decide
  have h2 : wellKnownDataFiles.find? (fun f => fileFilterMatches f "node:assert")
      = none := by decide
  simp [resolveSpecifier, h1, h2]

/-- C9: a request whose final path segment after prefix stripping is not one
of the known artifact or source-map filenames leaves the whole coordinator
state — request counters, build counter, worker toggle and output handle —
unchanged. -/
theorem c9_static_frame (sub : Option String) (st : CoordState) (url : String)
    (h : isArtifact (basename (strippedPath sub url)) = false) :
    (handleRequest sub st url).1 = st := by
  cases sub with
  | none =>
    simp only [strippedPath] at h
    simp [handleRequest, dispatch, h]
  | some pfx =>
    by_cases hs : strStartsWith ("/" ++ pfx ++ "/") url = true
    · simp [handleRequest, dispatch, hs, h]
    · simp [handleRequest, hs]

/-- C9 (witness): the static request `/uma-tools/umalator-global/index.html`
leaves the state reached after one worker request unchanged. -/
theorem c9_static_frame_w :
    isArtifact (basename (strippedPath (some "uma-tools")
      "/uma-tools/umalator-global/index.html")) = false ∧
    (handleRequest (some "uma-tools") (wOdd 0)
      "/uma-tools/umalator-global/index.html").1 = wOdd 0 :=
  ⟨by decide,
   c9_static_frame (some "uma-tools") (wOdd 0)
     "/uma-tools/umalator-global/index.html" (by decide)⟩

/-- C10: with configured prefix `uma-tools` the path `/uma-tools` (no
trailing slash) fails the `startsWith('/uma-tools/')` check and is answered
with the 302 redirect, and a request is never redirected when its path does
start with `/uma-tools/`. -/
theorem c10_exact_path_redirect :
    (∀ st : CoordState, handleRequest (some "uma-tools") st "/uma-tools"
        = (st, Outcome.redirect ("/" ++ "uma-tools" ++ "/umalator-global/"))) ∧
    (∀ (st : CoordState) (url : String),
      strStartsWith ("/" ++ "uma-tools" ++ "/") url = true →
      ∀ loc, (handleRequest (some "uma-tools") st url).2 ≠ Outcome.redirect loc) := by
  constructor
  · intro st
    have h : strStartsWith "/uma-tools/" "/uma-tools" = false := by decide
    simp [handleRequest, h]
  · intro st url h loc
    simp only [handleRequest, h]
    simp [dispatch]
    split <;> simp

/-- C10 (witness): the artifact path `/uma-tools/umalator-global/bundle.js`
starts with the slash-terminated prefix and is not redirected. -/
theorem c10_exact_path_redirect_w :
    strStartsWith ("/" ++ "uma-tools" ++ "/") "/uma-tools/umalator-global/bundle.js"
      = true ∧
    ∀ loc, (handleRequest (some "uma-tools") initState
        "/uma-tools/umalator-global/bundle.js").2 ≠ Outcome.redirect loc :=
  ⟨by decide,
   c10_exact_path_redirect.2 initState "/uma-tools/umalator-global/bundle.js"
     (by decide)⟩

